import Mathlib

/-!
# Verification of the `berts` db crate (`src/db/src/lib.rs`)

A shallow embedding of the beets-database reader library. The library reads
`albums` and `items` tables from a SQLite database into typed records.

Modelling conventions:
* Rust `String` values coming out of database rows, and `PathBuf` values built
  from them, are modelled as lists of Unicode scalar values (`List Nat`).
  Static text (table/column names, SQL text, error display text) is modelled
  with Lean `String`.
* `u32` is modelled as `Nat` with an explicit range check in the SQL coercion,
  `i32` as `Int` with a range check, `f64` (never computed with, only stored)
  as `Rat`.
* The storage engine (`rusqlite`) is an external collaborator: its error type
  is modelled as a small inductive, a connection as a function from SQL text
  to a prepared statement, and a statement as a result set (a list of raw
  rows) or an execution failure.
-/

namespace Berts

/-- Model of a Rust `String` cell value: its Unicode scalar values. -/
abbrev Str := List Nat

/-- Model of `std::path::PathBuf` (built from a `String` via `String::into`,
which preserves the text). -/
abbrev PathBuf := List Nat

/-- A raw SQLite value, as surfaced by `rusqlite` (`types::Value`). -/
inductive SqlValue where
  | Null : SqlValue
  | Integer : Int → SqlValue
  | Real : Rat → SqlValue
  | Text : Str → SqlValue
  | Blob : List Nat → SqlValue
deriving DecidableEq, Repr

/-- Model of `rusqlite::Error` (external storage-engine error). Only the
constructors the library can observe are distinguished; `sqliteFailure`
stands for every other engine error. -/
inductive RusqliteError where
  | invalidColumnType : RusqliteError
  | invalidColumnIndex : RusqliteError
  | integralValueOutOfRange : RusqliteError
  | sqliteFailure : Nat → String → RusqliteError
deriving DecidableEq, Repr

/-- Display text of the underlying engine error (model). -/
def RusqliteError.display : RusqliteError → String
  | .invalidColumnType => "Invalid column type"
  | .invalidColumnIndex => "Invalid column index"
  | .integralValueOutOfRange => "Integer value out of range"
  | .sqliteFailure _ msg => msg

/-- `struct TableColumn { table: &'static str, column: &'static str }` -/
structure TableColumn where
  table : String
  column : String
deriving DecidableEq, Repr

/-- `enum ErrorKind { Row(TableColumn), Open, Query, UnknownTransparent }` -/
inductive ErrorKind where
  | Row : TableColumn → ErrorKind
  | Open : ErrorKind
  | Query : ErrorKind
  | UnknownTransparent : ErrorKind
deriving DecidableEq, Repr

/-- `struct Error { source: rusqlite::Error, kind: ErrorKind }` -/
structure Error where
  source : RusqliteError
  kind : ErrorKind
deriving DecidableEq, Repr

/-- `impl From<rusqlite::Error> for Error` (used by the `?` operator on
bare `rusqlite` results): classifies as `UnknownTransparent`. -/
def Error.fromRusqlite (source : RusqliteError) : Error :=
  { source := source, kind := ErrorKind.UnknownTransparent }

/-- `impl From<Error> for rusqlite::Error`: returns the wrapped source. -/
def Error.intoRusqlite (value : Error) : RusqliteError :=
  value.source

/-- The display text of a `Row`-kind error:
`write!(f, "failed to get column {column:?} in table {table:?}")`, where
`{...:?}` is Rust `Debug` formatting of a `&str`, which surrounds the plain
identifier with quotes. -/
def rowErrorDisplay (table column : String) : String :=
  "failed to get column \"" ++ column ++ "\" in table \"" ++ table ++ "\""

/-- `impl Display for Error`. -/
def Error.display (e : Error) : String :=
  match e.kind with
  | .Row ⟨table, column⟩ => rowErrorDisplay table column
  | .Open => "failed to open database"
  | .Query => "failed to query database"
  | .UnknownTransparent => e.source.display

/-! ## UTF-8 encoding and lossy decoding

`blob_to_path` and `str_or_blob_to_path` use Rust's
`String::from_utf8_lossy`, which decodes maximal valid UTF-8 sequences and
substitutes U+FFFD for each maximal invalid subpart (the semantics of
`core::str`'s UTF-8 validation, mirrored by `utf8DecodeStep` below). -/

/-- A Unicode scalar value (what a Rust `char` may hold). -/
def ValidScalar (n : Nat) : Prop :=
  n < 0xD800 ∨ (0xE000 ≤ n ∧ n < 0x110000)

instance (n : Nat) : Decidable (ValidScalar n) := by
  unfold ValidScalar; infer_instance

/-- Standard UTF-8 encoding of one scalar value (Rust `char::encode_utf8`). -/
def utf8EncodeChar (c : Nat) : List Nat :=
  if c < 0x80 then [c]
  else if c < 0x800 then [0xC0 + c / 64, 0x80 + c % 64]
  else if c < 0x10000 then [0xE0 + c / 4096, 0x80 + c / 64 % 64, 0x80 + c % 64]
  else [0xF0 + c / 262144, 0x80 + c / 4096 % 64, 0x80 + c / 64 % 64, 0x80 + c % 64]

/-- UTF-8 encoding of a whole string (list of scalar values). -/
def utf8Encode (s : List Nat) : List Nat :=
  s.flatMap utf8EncodeChar

/-- One step of Rust's UTF-8 validation/decoding, as performed by
`core::str::from_utf8` / `String::from_utf8_lossy`: on a non-empty input,
either decode one scalar value, or fail; in both cases report how many bytes
were consumed (the maximal subpart for a failure, per `Utf8Error::error_len`
and the lossy decoder's handling of a truncated tail). -/
def utf8DecodeStep : List Nat → Option Nat × Nat
  | [] => (none, 0)
  | b0 :: rest =>
    if b0 < 0x80 then (some b0, 1)
    else if b0 < 0xC2 then (none, 1)
    else if b0 < 0xE0 then
      match rest with
      | b1 :: _ =>
        if 0x80 ≤ b1 ∧ b1 ≤ 0xBF then (some ((b0 - 0xC0) * 64 + (b1 - 0x80)), 2)
        else (none, 1)
      | [] => (none, 1)
    else if b0 < 0xF0 then
      match rest with
      | b1 :: rest1 =>
        if (b0 = 0xE0 ∧ 0xA0 ≤ b1 ∧ b1 ≤ 0xBF) ∨
            (b0 = 0xED ∧ 0x80 ≤ b1 ∧ b1 ≤ 0x9F) ∨
            (b0 ≠ 0xE0 ∧ b0 ≠ 0xED ∧ 0x80 ≤ b1 ∧ b1 ≤ 0xBF) then
          match rest1 with
          | b2 :: _ =>
            if 0x80 ≤ b2 ∧ b2 ≤ 0xBF then
              (some ((b0 - 0xE0) * 4096 + (b1 - 0x80) * 64 + (b2 - 0x80)), 3)
            else (none, 2)
          | [] => (none, 2)
        else (none, 1)
      | [] => (none, 1)
    else if b0 < 0xF5 then
      match rest with
      | b1 :: rest1 =>
        if (b0 = 0xF0 ∧ 0x90 ≤ b1 ∧ b1 ≤ 0xBF) ∨
            (b0 = 0xF4 ∧ 0x80 ≤ b1 ∧ b1 ≤ 0x8F) ∨
            ((b0 = 0xF1 ∨ b0 = 0xF2 ∨ b0 = 0xF3) ∧ 0x80 ≤ b1 ∧ b1 ≤ 0xBF) then
          match rest1 with
          | b2 :: rest2 =>
            if 0x80 ≤ b2 ∧ b2 ≤ 0xBF then
              match rest2 with
              | b3 :: _ =>
                if 0x80 ≤ b3 ∧ b3 ≤ 0xBF then
                  (some ((b0 - 0xF0) * 262144 + (b1 - 0x80) * 4096 +
                    (b2 - 0x80) * 64 + (b3 - 0x80)), 4)
                else (none, 3)
              | [] => (none, 3)
            else (none, 2)
          | [] => (none, 2)
        else (none, 1)
      | [] => (none, 1)
    else (none, 1)

/-- Fuelled driver of the lossy decoder: each step consumes at least one
byte, so fuel equal to the byte count is always sufficient. -/
def utf8LossyGo : Nat → List Nat → List Nat
  | 0, _ => []
  | _, [] => []
  | fuel + 1, b :: rest =>
    let step := utf8DecodeStep (b :: rest)
    (match step.1 with
      | some c => c
      | none => 0xFFFD) :: utf8LossyGo fuel (List.drop step.2 (b :: rest))

/-- `String::from_utf8_lossy`, producing the scalar values of the result. -/
def utf8Lossy (b : List Nat) : List Nat :=
  utf8LossyGo b.length b

/-- UTF-8 validity of a byte sequence (the acceptor of
`core::str::from_utf8`), stated independently of the lossy decoder as an
inductive predicate: a valid sequence is a sequence of well-formed 1- to
4-byte encodings with the standard lead/continuation ranges, surrogates and
overlong forms excluded. -/
inductive Utf8Valid : List Nat → Prop where
  | nil : Utf8Valid []
  | ascii {b0 : Nat} {rest : List Nat} :
      b0 < 0x80 → Utf8Valid rest → Utf8Valid (b0 :: rest)
  | two {b0 b1 : Nat} {rest : List Nat} :
      0xC2 ≤ b0 ∧ b0 ≤ 0xDF → 0x80 ≤ b1 ∧ b1 ≤ 0xBF →
      Utf8Valid rest → Utf8Valid (b0 :: b1 :: rest)
  | three {b0 b1 b2 : Nat} {rest : List Nat} :
      0xE0 ≤ b0 ∧ b0 ≤ 0xEF →
      ((b0 = 0xE0 ∧ 0xA0 ≤ b1 ∧ b1 ≤ 0xBF) ∨
        (b0 = 0xED ∧ 0x80 ≤ b1 ∧ b1 ≤ 0x9F) ∨
        (b0 ≠ 0xE0 ∧ b0 ≠ 0xED ∧ 0x80 ≤ b1 ∧ b1 ≤ 0xBF)) →
      0x80 ≤ b2 ∧ b2 ≤ 0xBF →
      Utf8Valid rest → Utf8Valid (b0 :: b1 :: b2 :: rest)
  | four {b0 b1 b2 b3 : Nat} {rest : List Nat} :
      0xF0 ≤ b0 ∧ b0 ≤ 0xF4 →
      ((b0 = 0xF0 ∧ 0x90 ≤ b1 ∧ b1 ≤ 0xBF) ∨
        (b0 = 0xF4 ∧ 0x80 ≤ b1 ∧ b1 ≤ 0x8F) ∨
        ((b0 = 0xF1 ∨ b0 = 0xF2 ∨ b0 = 0xF3) ∧ 0x80 ≤ b1 ∧ b1 ≤ 0xBF)) →
      0x80 ≤ b2 ∧ b2 ≤ 0xBF → 0x80 ≤ b3 ∧ b3 ≤ 0xBF →
      Utf8Valid rest → Utf8Valid (b0 :: b1 :: b2 :: b3 :: rest)

/-! ## Rows, `FromSql` coercions, `LocalRow`, and the field decoders -/

/-- A raw result-set row: the column values in query order. -/
abbrev DbRow := List SqlValue

/-- Looking a column up by index in a `rusqlite::Row`
(`Error::InvalidColumnIndex` when out of range). -/
def rowGetValue (r : DbRow) (idx : Nat) : Except RusqliteError SqlValue :=
  match r[idx]? with
  | some v => .ok v
  | none => .error .invalidColumnIndex

/-- `FromSql` for `u32`: an SQLite integer within range. -/
def fromSqlU32 : SqlValue → Except RusqliteError Nat
  | .Integer i =>
      if 0 ≤ i ∧ i < 4294967296 then .ok i.toNat
      else .error .integralValueOutOfRange
  | _ => .error .invalidColumnType

/-- `FromSql` for `i32`: an SQLite integer within range. -/
def fromSqlI32 : SqlValue → Except RusqliteError Int
  | .Integer i =>
      if -2147483648 ≤ i ∧ i < 2147483648 then .ok i
      else .error .integralValueOutOfRange
  | _ => .error .invalidColumnType

/-- `FromSql` for `f64`: a real, or an integer widened to float. -/
def fromSqlF64 : SqlValue → Except RusqliteError Rat
  | .Real r => .ok r
  | .Integer i => .ok (i : Rat)
  | _ => .error .invalidColumnType

/-- `FromSql` for `bool`: an SQLite integer, nonzero meaning true. -/
def fromSqlBool : SqlValue → Except RusqliteError Bool
  | .Integer i => .ok (decide (i ≠ 0))
  | _ => .error .invalidColumnType

/-- `FromSql` for `String`: a text value only. -/
def fromSqlString : SqlValue → Except RusqliteError Str
  | .Text s => .ok s
  | _ => .error .invalidColumnType

/-- `FromSql` for `Vec<u8>`: a blob value only. -/
def fromSqlBlob : SqlValue → Except RusqliteError (List Nat)
  | .Blob b => .ok b
  | _ => .error .invalidColumnType

/-- `FromSql` for `Option<T>`: `NULL` becomes `None`, anything else is
coerced by the inner type's rule. -/
def fromSqlOption (f : SqlValue → Except RusqliteError β) :
    SqlValue → Except RusqliteError (Option β)
  | .Null => .ok none
  | v => (f v).map some

/-- `struct LocalRow<'a,'b>(&'b rusqlite::Row<'a>, TableColumn)` -/
structure LocalRow where
  row : DbRow
  tc : TableColumn

/-- `LocalRow::get`: look the column up, coerce it (the `FromSql` instance is
passed explicitly as `coerce`), and wrap any engine failure into a `Row`
error carrying the attached `TableColumn` context. -/
def LocalRow.get (lr : LocalRow) (idx : Nat)
    (coerce : SqlValue → Except RusqliteError β) : Except Error β :=
  match (rowGetValue lr.row idx).bind coerce with
  | .ok v => .ok v
  | .error source => .error { source := source, kind := ErrorKind.Row lr.tc }

/-- `fn blob_to_path(v: Vec<u8>) -> PathBuf`:
`String::from(String::from_utf8_lossy(&v)).into()`. -/
def blob_to_path (v : List Nat) : PathBuf :=
  utf8Lossy v

/-- `fn str_or_blob_to_path`: try the column as text; if that coercion fails,
read the same column as a blob and lossily decode it; convert into a path. -/
def str_or_blob_to_path (row : LocalRow) (idx : Nat) : Except Error PathBuf :=
  match row.get idx fromSqlString with
  | .ok s => .ok s
  | .error _ =>
    match row.get idx fromSqlBlob with
    | .ok value => .ok (utf8Lossy value)
    | .error e => .error e

/-- `fn optional_blob_to_path`: read an optional blob; when present, lossily
decode it to a path. -/
def optional_blob_to_path (row : LocalRow) (idx : Nat) :
    Except Error (Option PathBuf) :=
  match row.get idx (fromSqlOption fromSqlBlob) with
  | .ok value => .ok (value.map blob_to_path)
  | .error e => .error e

/-- Rust's `Default` trait, at the instantiations the library uses with
`is_num_zero` (`u32`, `i32`, `f64`, and `Option<_>`). -/
class RustDefault (α : Type) where
  defaultValue : α

instance : RustDefault Nat := ⟨0⟩
instance : RustDefault Int := ⟨0⟩
instance : RustDefault Rat := ⟨0⟩
instance : RustDefault (Option α) := ⟨none⟩

/-- `fn is_num_zero<T: Default + PartialEq>(n: &T) -> bool { n == &T::default() }` -/
def is_num_zero {α : Type} [RustDefault α] [DecidableEq α] (n : α) : Bool :=
  n = RustDefault.defaultValue

/-! ## The `Album` entity (`def_sqlite_struct! { Album albums [...] }`) -/

/-- All of the fields that an album has in the beets schema. -/
structure Album where
  id : Nat
  artpath : Option PathBuf
  added : Rat
  albumartist : Str
  albumartist_sort : Str
  albumartist_credit : Str
  album : Str
  genre : Str
  year : Nat
  month : Nat
  day : Nat
  disctotal : Nat
  comp : Bool
  mb_albumid : Str
  mb_albumartistid : Str
  albumtype : Str
  label : Str
  mb_releasegroupid : Str
  asin : Str
  catalognum : Str
  script : Str
  language : Str
  country : Str
  albumstatus : Str
  albumdisambig : Str
  rg_album_gain : Option Rat
  rg_album_peak : Option Rat
  r128_album_gain : Option Int
  original_year : Nat
  original_month : Nat
  original_day : Nat
deriving DecidableEq, Repr

namespace Album

/-- `Album::COLUMNS`: the declared field identifiers, in declared order. -/
def COLUMNS : List String :=
  ["id", "artpath", "added", "albumartist", "albumartist_sort",
   "albumartist_credit", "album", "genre", "year", "month", "day",
   "disctotal", "comp", "mb_albumid", "mb_albumartistid", "albumtype",
   "label", "mb_releasegroupid", "asin", "catalognum", "script", "language",
   "country", "albumstatus", "albumdisambig", "rg_album_gain",
   "rg_album_peak", "r128_album_gain", "original_year", "original_month",
   "original_day"]

/-- `Album::SQL_QUERY`, the compile-time
`concat!("SELECT ", <each field name followed by ",">..., "id FROM ", "albums")`. -/
def SQL_QUERY : String :=
  "SELECT " ++ String.join (COLUMNS.map (fun f => f ++ ",")) ++
    "id FROM " ++ "albums"

/-- `Album::from_row`: bind each declared field positionally, each through a
`LocalRow` whose context is `(stringify!(Album), stringify!(<field>))`. -/
def from_row (db_row : DbRow) : Except Error Album := do
  let id ← LocalRow.get ⟨db_row, ⟨"Album", "id"⟩⟩ 0 fromSqlU32
  let artpath ← optional_blob_to_path ⟨db_row, ⟨"Album", "artpath"⟩⟩ 1
  let added ← LocalRow.get ⟨db_row, ⟨"Album", "added"⟩⟩ 2 fromSqlF64
  let albumartist ← LocalRow.get ⟨db_row, ⟨"Album", "albumartist"⟩⟩ 3 fromSqlString
  let albumartist_sort ← LocalRow.get ⟨db_row, ⟨"Album", "albumartist_sort"⟩⟩ 4 fromSqlString
  let albumartist_credit ← LocalRow.get ⟨db_row, ⟨"Album", "albumartist_credit"⟩⟩ 5 fromSqlString
  let album ← LocalRow.get ⟨db_row, ⟨"Album", "album"⟩⟩ 6 fromSqlString
  let genre ← LocalRow.get ⟨db_row, ⟨"Album", "genre"⟩⟩ 7 fromSqlString
  let year ← LocalRow.get ⟨db_row, ⟨"Album", "year"⟩⟩ 8 fromSqlU32
  let month ← LocalRow.get ⟨db_row, ⟨"Album", "month"⟩⟩ 9 fromSqlU32
  let day ← LocalRow.get ⟨db_row, ⟨"Album", "day"⟩⟩ 10 fromSqlU32
  let disctotal ← LocalRow.get ⟨db_row, ⟨"Album", "disctotal"⟩⟩ 11 fromSqlU32
  let comp ← LocalRow.get ⟨db_row, ⟨"Album", "comp"⟩⟩ 12 fromSqlBool
  let mb_albumid ← LocalRow.get ⟨db_row, ⟨"Album", "mb_albumid"⟩⟩ 13 fromSqlString
  let mb_albumartistid ← LocalRow.get ⟨db_row, ⟨"Album", "mb_albumartistid"⟩⟩ 14 fromSqlString
  let albumtype ← LocalRow.get ⟨db_row, ⟨"Album", "albumtype"⟩⟩ 15 fromSqlString
  let label ← LocalRow.get ⟨db_row, ⟨"Album", "label"⟩⟩ 16 fromSqlString
  let mb_releasegroupid ← LocalRow.get ⟨db_row, ⟨"Album", "mb_releasegroupid"⟩⟩ 17 fromSqlString
  let asin ← LocalRow.get ⟨db_row, ⟨"Album", "asin"⟩⟩ 18 fromSqlString
  let catalognum ← LocalRow.get ⟨db_row, ⟨"Album", "catalognum"⟩⟩ 19 fromSqlString
  let script ← LocalRow.get ⟨db_row, ⟨"Album", "script"⟩⟩ 20 fromSqlString
  let language ← LocalRow.get ⟨db_row, ⟨"Album", "language"⟩⟩ 21 fromSqlString
  let country ← LocalRow.get ⟨db_row, ⟨"Album", "country"⟩⟩ 22 fromSqlString
  let albumstatus ← LocalRow.get ⟨db_row, ⟨"Album", "albumstatus"⟩⟩ 23 fromSqlString
  let albumdisambig ← LocalRow.get ⟨db_row, ⟨"Album", "albumdisambig"⟩⟩ 24 fromSqlString
  let rg_album_gain ← LocalRow.get ⟨db_row, ⟨"Album", "rg_album_gain"⟩⟩ 25 (fromSqlOption fromSqlF64)
  let rg_album_peak ← LocalRow.get ⟨db_row, ⟨"Album", "rg_album_peak"⟩⟩ 26 (fromSqlOption fromSqlF64)
  let r128_album_gain ← LocalRow.get ⟨db_row, ⟨"Album", "r128_album_gain"⟩⟩ 27 (fromSqlOption fromSqlI32)
  let original_year ← LocalRow.get ⟨db_row, ⟨"Album", "original_year"⟩⟩ 28 fromSqlU32
  let original_month ← LocalRow.get ⟨db_row, ⟨"Album", "original_month"⟩⟩ 29 fromSqlU32
  let original_day ← LocalRow.get ⟨db_row, ⟨"Album", "original_day"⟩⟩ 30 fromSqlU32
  pure { id, artpath, added, albumartist, albumartist_sort,
         albumartist_credit, album, genre, year, month, day, disctotal,
         comp, mb_albumid, mb_albumartistid, albumtype, label,
         mb_releasegroupid, asin, catalognum, script, language, country,
         albumstatus, albumdisambig, rg_album_gain, rg_album_peak,
         r128_album_gain, original_year, original_month, original_day }

end Album

/-! ## The `Item` entity (`def_sqlite_struct! { Item items [...] }`) -/

/-- All of the fields that an "item" (track) has in the beets schema. -/
structure Item where
  id : Nat
  path : PathBuf
  album_id : Option Nat
  title : Str
  artist : Str
  artist_sort : Str
  artist_credit : Str
  album : Str
  albumartist : Str
  albumartist_sort : Str
  albumartist_credit : Str
  genre : Str
  lyricist : Str
  composer : Str
  composer_sort : Str
  arranger : Str
  grouping : Str
  year : Nat
  month : Nat
  day : Nat
  track : Nat
  tracktotal : Nat
  disc : Nat
  disctotal : Nat
  lyrics : Str
  comments : Str
  bpm : Nat
  comp : Bool
  mb_trackid : Str
  mb_albumid : Str
  mb_artistid : Str
  mb_albumartistid : Str
  mb_releasetrackid : Str
  albumtype : Str
  label : Str
  acoustid_fingerprint : Str
  acoustid_id : Str
  mb_releasegroupid : Str
  asin : Str
  catalognum : Str
  script : Str
  language : Str
  country : Str
  albumstatus : Str
  media : Str
  albumdisambig : Str
  disctitle : Str
  encoder : Str
  rg_track_gain : Option Rat
  rg_track_peak : Option Rat
  rg_album_gain : Option Rat
  rg_album_peak : Option Rat
  r128_track_gain : Option Rat
  r128_album_gain : Option Rat
  original_year : Nat
  original_month : Nat
  original_day : Nat
  initial_key : Option Str
  length : Rat
  bitrate : Nat
  format : Str
  samplerate : Nat
  bitdepth : Nat
  channels : Nat
  mtime : Rat
  added : Rat
deriving DecidableEq, Repr

namespace Item

/-- `Item::COLUMNS`: the declared field identifiers, in declared order. -/
def COLUMNS : List String :=
  ["id", "path", "album_id", "title", "artist", "artist_sort",
   "artist_credit", "album", "albumartist", "albumartist_sort",
   "albumartist_credit", "genre", "lyricist", "composer", "composer_sort",
   "arranger", "grouping", "year", "month", "day", "track", "tracktotal",
   "disc", "disctotal", "lyrics", "comments", "bpm", "comp", "mb_trackid",
   "mb_albumid", "mb_artistid", "mb_albumartistid", "mb_releasetrackid",
   "albumtype", "label", "acoustid_fingerprint", "acoustid_id",
   "mb_releasegroupid", "asin", "catalognum", "script", "language",
   "country", "albumstatus", "media", "albumdisambig", "disctitle",
   "encoder", "rg_track_gain", "rg_track_peak", "rg_album_gain",
   "rg_album_peak", "r128_track_gain", "r128_album_gain", "original_year",
   "original_month", "original_day", "initial_key", "length", "bitrate",
   "format", "samplerate", "bitdepth", "channels", "mtime", "added"]

/-- `Item::SQL_QUERY`, the compile-time
`concat!("SELECT ", <each field name followed by ",">..., "id FROM ", "items")`. -/
def SQL_QUERY : String :=
  "SELECT " ++ String.join (COLUMNS.map (fun f => f ++ ",")) ++
    "id FROM " ++ "items"

/-- `Item::from_row`: bind each declared field positionally, each through a
`LocalRow` whose context is `(stringify!(Item), stringify!(<field>))`. -/
def from_row (db_row : DbRow) : Except Error Item := do
  let id ← LocalRow.get ⟨db_row, ⟨"Item", "id"⟩⟩ 0 fromSqlU32
  let path ← str_or_blob_to_path ⟨db_row, ⟨"Item", "path"⟩⟩ 1
  let album_id ← LocalRow.get ⟨db_row, ⟨"Item", "album_id"⟩⟩ 2 (fromSqlOption fromSqlU32)
  let title ← LocalRow.get ⟨db_row, ⟨"Item", "title"⟩⟩ 3 fromSqlString
  let artist ← LocalRow.get ⟨db_row, ⟨"Item", "artist"⟩⟩ 4 fromSqlString
  let artist_sort ← LocalRow.get ⟨db_row, ⟨"Item", "artist_sort"⟩⟩ 5 fromSqlString
  let artist_credit ← LocalRow.get ⟨db_row, ⟨"Item", "artist_credit"⟩⟩ 6 fromSqlString
  let album ← LocalRow.get ⟨db_row, ⟨"Item", "album"⟩⟩ 7 fromSqlString
  let albumartist ← LocalRow.get ⟨db_row, ⟨"Item", "albumartist"⟩⟩ 8 fromSqlString
  let albumartist_sort ← LocalRow.get ⟨db_row, ⟨"Item", "albumartist_sort"⟩⟩ 9 fromSqlString
  let albumartist_credit ← LocalRow.get ⟨db_row, ⟨"Item", "albumartist_credit"⟩⟩ 10 fromSqlString
  let genre ← LocalRow.get ⟨db_row, ⟨"Item", "genre"⟩⟩ 11 fromSqlString
  let lyricist ← LocalRow.get ⟨db_row, ⟨"Item", "lyricist"⟩⟩ 12 fromSqlString
  let composer ← LocalRow.get ⟨db_row, ⟨"Item", "composer"⟩⟩ 13 fromSqlString
  let composer_sort ← LocalRow.get ⟨db_row, ⟨"Item", "composer_sort"⟩⟩ 14 fromSqlString
  let arranger ← LocalRow.get ⟨db_row, ⟨"Item", "arranger"⟩⟩ 15 fromSqlString
  let grouping ← LocalRow.get ⟨db_row, ⟨"Item", "grouping"⟩⟩ 16 fromSqlString
  let year ← LocalRow.get ⟨db_row, ⟨"Item", "year"⟩⟩ 17 fromSqlU32
  let month ← LocalRow.get ⟨db_row, ⟨"Item", "month"⟩⟩ 18 fromSqlU32
  let day ← LocalRow.get ⟨db_row, ⟨"Item", "day"⟩⟩ 19 fromSqlU32
  let track ← LocalRow.get ⟨db_row, ⟨"Item", "track"⟩⟩ 20 fromSqlU32
  let tracktotal ← LocalRow.get ⟨db_row, ⟨"Item", "tracktotal"⟩⟩ 21 fromSqlU32
  let disc ← LocalRow.get ⟨db_row, ⟨"Item", "disc"⟩⟩ 22 fromSqlU32
  let disctotal ← LocalRow.get ⟨db_row, ⟨"Item", "disctotal"⟩⟩ 23 fromSqlU32
  let lyrics ← LocalRow.get ⟨db_row, ⟨"Item", "lyrics"⟩⟩ 24 fromSqlString
  let comments ← LocalRow.get ⟨db_row, ⟨"Item", "comments"⟩⟩ 25 fromSqlString
  let bpm ← LocalRow.get ⟨db_row, ⟨"Item", "bpm"⟩⟩ 26 fromSqlU32
  let comp ← LocalRow.get ⟨db_row, ⟨"Item", "comp"⟩⟩ 27 fromSqlBool
  let mb_trackid ← LocalRow.get ⟨db_row, ⟨"Item", "mb_trackid"⟩⟩ 28 fromSqlString
  let mb_albumid ← LocalRow.get ⟨db_row, ⟨"Item", "mb_albumid"⟩⟩ 29 fromSqlString
  let mb_artistid ← LocalRow.get ⟨db_row, ⟨"Item", "mb_artistid"⟩⟩ 30 fromSqlString
  let mb_albumartistid ← LocalRow.get ⟨db_row, ⟨"Item", "mb_albumartistid"⟩⟩ 31 fromSqlString
  let mb_releasetrackid ← LocalRow.get ⟨db_row, ⟨"Item", "mb_releasetrackid"⟩⟩ 32 fromSqlString
  let albumtype ← LocalRow.get ⟨db_row, ⟨"Item", "albumtype"⟩⟩ 33 fromSqlString
  let label ← LocalRow.get ⟨db_row, ⟨"Item", "label"⟩⟩ 34 fromSqlString
  let acoustid_fingerprint ← LocalRow.get ⟨db_row, ⟨"Item", "acoustid_fingerprint"⟩⟩ 35 fromSqlString
  let acoustid_id ← LocalRow.get ⟨db_row, ⟨"Item", "acoustid_id"⟩⟩ 36 fromSqlString
  let mb_releasegroupid ← LocalRow.get ⟨db_row, ⟨"Item", "mb_releasegroupid"⟩⟩ 37 fromSqlString
  let asin ← LocalRow.get ⟨db_row, ⟨"Item", "asin"⟩⟩ 38 fromSqlString
  let catalognum ← LocalRow.get ⟨db_row, ⟨"Item", "catalognum"⟩⟩ 39 fromSqlString
  let script ← LocalRow.get ⟨db_row, ⟨"Item", "script"⟩⟩ 40 fromSqlString
  let language ← LocalRow.get ⟨db_row, ⟨"Item", "language"⟩⟩ 41 fromSqlString
  let country ← LocalRow.get ⟨db_row, ⟨"Item", "country"⟩⟩ 42 fromSqlString
  let albumstatus ← LocalRow.get ⟨db_row, ⟨"Item", "albumstatus"⟩⟩ 43 fromSqlString
  let media ← LocalRow.get ⟨db_row, ⟨"Item", "media"⟩⟩ 44 fromSqlString
  let albumdisambig ← LocalRow.get ⟨db_row, ⟨"Item", "albumdisambig"⟩⟩ 45 fromSqlString
  let disctitle ← LocalRow.get ⟨db_row, ⟨"Item", "disctitle"⟩⟩ 46 fromSqlString
  let encoder ← LocalRow.get ⟨db_row, ⟨"Item", "encoder"⟩⟩ 47 fromSqlString
  let rg_track_gain ← LocalRow.get ⟨db_row, ⟨"Item", "rg_track_gain"⟩⟩ 48 (fromSqlOption fromSqlF64)
  let rg_track_peak ← LocalRow.get ⟨db_row, ⟨"Item", "rg_track_peak"⟩⟩ 49 (fromSqlOption fromSqlF64)
  let rg_album_gain ← LocalRow.get ⟨db_row, ⟨"Item", "rg_album_gain"⟩⟩ 50 (fromSqlOption fromSqlF64)
  let rg_album_peak ← LocalRow.get ⟨db_row, ⟨"Item", "rg_album_peak"⟩⟩ 51 (fromSqlOption fromSqlF64)
  let r128_track_gain ← LocalRow.get ⟨db_row, ⟨"Item", "r128_track_gain"⟩⟩ 52 (fromSqlOption fromSqlF64)
  let r128_album_gain ← LocalRow.get ⟨db_row, ⟨"Item", "r128_album_gain"⟩⟩ 53 (fromSqlOption fromSqlF64)
  let original_year ← LocalRow.get ⟨db_row, ⟨"Item", "original_year"⟩⟩ 54 fromSqlU32
  let original_month ← LocalRow.get ⟨db_row, ⟨"Item", "original_month"⟩⟩ 55 fromSqlU32
  let original_day ← LocalRow.get ⟨db_row, ⟨"Item", "original_day"⟩⟩ 56 fromSqlU32
  let initial_key ← LocalRow.get ⟨db_row, ⟨"Item", "initial_key"⟩⟩ 57 (fromSqlOption fromSqlString)
  let length ← LocalRow.get ⟨db_row, ⟨"Item", "length"⟩⟩ 58 fromSqlF64
  let bitrate ← LocalRow.get ⟨db_row, ⟨"Item", "bitrate"⟩⟩ 59 fromSqlU32
  let format ← LocalRow.get ⟨db_row, ⟨"Item", "format"⟩⟩ 60 fromSqlString
  let samplerate ← LocalRow.get ⟨db_row, ⟨"Item", "samplerate"⟩⟩ 61 fromSqlU32
  let bitdepth ← LocalRow.get ⟨db_row, ⟨"Item", "bitdepth"⟩⟩ 62 fromSqlU32
  let channels ← LocalRow.get ⟨db_row, ⟨"Item", "channels"⟩⟩ 63 fromSqlU32
  let mtime ← LocalRow.get ⟨db_row, ⟨"Item", "mtime"⟩⟩ 64 fromSqlF64
  let added ← LocalRow.get ⟨db_row, ⟨"Item", "added"⟩⟩ 65 fromSqlF64
  pure { id, path, album_id, title, artist, artist_sort, artist_credit,
         album, albumartist, albumartist_sort, albumartist_credit, genre,
         lyricist, composer, composer_sort, arranger, grouping, year, month,
         day, track, tracktotal, disc, disctotal, lyrics, comments, bpm,
         comp, mb_trackid, mb_albumid, mb_artistid, mb_albumartistid,
         mb_releasetrackid, albumtype, label, acoustid_fingerprint,
         acoustid_id, mb_releasegroupid, asin, catalognum, script, language,
         country, albumstatus, media, albumdisambig, disctitle, encoder,
         rg_track_gain, rg_track_peak, rg_album_gain, rg_album_peak,
         r128_track_gain, r128_album_gain, original_year, original_month,
         original_day, initial_key, length, bitrate, format, samplerate,
         bitdepth, channels, mtime, added }

end Item

/-! ## Table reader and library loader -/

/-- A prepared statement (external collaborator): executing it either fails
in the engine or yields the result set, i.e. the raw rows in result order. -/
structure Statement where
  run : Except RusqliteError (List DbRow)

/-- An open connection (external collaborator): preparing SQL text either
fails in the engine or yields a prepared statement. -/
structure Connection where
  prepare : String → Except RusqliteError Statement

/-- The `for row in rows { v.push(row?); }` loop of the generated
`read_all`: first binding failure aborts with that error, otherwise all
bound entities are collected in order. -/
def collectRows : List (Except Error α) → Except Error (List α)
  | [] => .ok []
  | .error e :: _ => .error e
  | .ok x :: rs => (collectRows rs).map (x :: ·)

/-- Body of the generated `fn read_all(c: &Connection)`:
`c.prepare(SQL_QUERY)?` (the `?` converting via `From<rusqlite::Error>`),
then `stmt.query_and_then((), from_row).map_err(.. Query ..)?`, then the
collection loop. -/
def readAllWith (c : Connection) (sql : String)
    (from_row : DbRow → Except Error α) : Except Error (List α) :=
  match c.prepare sql with
  | .error e => .error (Error.fromRusqlite e)
  | .ok stmt =>
    match stmt.run with
    | .error source => .error { source := source, kind := ErrorKind.Query }
    | .ok rows => collectRows (rows.map from_row)

/-- `Album::read_all`. -/
def Album.read_all (c : Connection) : Except Error (List Album) :=
  readAllWith c Album.SQL_QUERY Album.from_row

/-- `Item::read_all`. -/
def Item.read_all (c : Connection) : Except Error (List Item) :=
  readAllWith c Item.SQL_QUERY Item.from_row

/-- The relevant `rusqlite::OpenFlags` values. -/
inductive OpenFlags where
  | SQLITE_OPEN_READ_ONLY : OpenFlags
  | SQLITE_OPEN_READ_WRITE : OpenFlags
  | SQLITE_OPEN_READ_WRITE_CREATE : OpenFlags
deriving DecidableEq, Repr

/-- `Connection::open_with_flags` is the external filesystem/engine
collaborator; the loader is parametrized by it. -/
abbrev OpenWithFlags := PathBuf → OpenFlags → Except RusqliteError Connection

/-- Top-level `pub fn read_all(db_path: PathBuf)`: open read-only (failure
tagged `Open`), then read all albums and then all items over the same
connection, each `?` propagating the first `Error` unchanged. -/
def read_all (open_with_flags : OpenWithFlags) (db_path : PathBuf) :
    Except Error (List Album × List Item) :=
  match open_with_flags db_path OpenFlags.SQLITE_OPEN_READ_ONLY with
  | .error source => .error { source := source, kind := ErrorKind.Open }
  | .ok conn => do
    let albums ← Album.read_all conn
    let items ← Item.read_all conn
    pure (albums, items)

/-- "Is an error produced by the row binder of entity `t`": the error's kind
is `Row` with the entity's `TableColumn` context naming `t` and one of the
declared columns, and its display text names that context. -/
def RowErrPred (t : String) (cols : List String) (e : Error) : Prop :=
  ∃ col ∈ cols, e.kind = ErrorKind.Row ⟨t, col⟩ ∧
    e.display = rowErrorDisplay t col

/-- `x` only fails with errors satisfying `P`. -/
def ErrP {α : Type} (x : Except Error α) (P : Error → Prop) : Prop :=
  ∀ e, x = .error e → P e

/-! ## Concrete fixtures used by witnesses and counterexamples -/

/-- A connection whose `prepare` fails in the engine. -/
def connPrepareFails : Connection :=
  ⟨fun _ => .error (.sqliteFailure 1 "incomplete input")⟩

/-- A statement whose execution fails in the engine. -/
def stmtRunFails : Statement := ⟨.error (.sqliteFailure 5 "database is locked")⟩

/-- A connection that prepares fine but whose statement fails to run. -/
def connRunFails : Connection := ⟨fun _ => .ok stmtRunFails⟩

/-- A statement with a fixed result set. -/
def stmtRows (rows : List DbRow) : Statement := ⟨.ok rows⟩

/-- A connection whose every query yields a fixed result set. -/
def connRows (rows : List DbRow) : Connection := ⟨fun _ => .ok (stmtRows rows)⟩

/-- A fully decodable `albums` row (valid value at every position). -/
def albumRowOk : DbRow :=
  [.Integer 1, .Null, .Real 0, .Text [], .Text [], .Text [], .Text [],
   .Text [], .Integer 1999, .Integer 0, .Integer 0, .Integer 1, .Integer 0,
   .Text [], .Text [], .Text [], .Text [], .Text [], .Text [], .Text [],
   .Text [], .Text [], .Text [], .Text [], .Text [], .Null, .Null, .Null,
   .Integer 0, .Integer 0, .Integer 0]

/-- The entity `albumRowOk` decodes to. -/
def albumOk : Album :=
  { id := 1, artpath := none, added := 0, albumartist := [],
    albumartist_sort := [], albumartist_credit := [], album := [],
    genre := [], year := 1999, month := 0, day := 0, disctotal := 1,
    comp := false, mb_albumid := [], mb_albumartistid := [],
    albumtype := [], label := [], mb_releasegroupid := [], asin := [],
    catalognum := [], script := [], language := [], country := [],
    albumstatus := [], albumdisambig := [], rg_album_gain := none,
    rg_album_peak := none, r128_album_gain := none, original_year := 0,
    original_month := 0, original_day := 0 }

/-! ## Helper lemmas -/

instance {ε α : Type} [DecidableEq ε] [DecidableEq α] :
    DecidableEq (Except ε α) := fun a b =>
  match a, b with
  | .ok x, .ok y =>
    if h : x = y then .isTrue (by rw [h]) else
      .isFalse (fun hh => by cases hh; exact h rfl)
  | .error x, .error y =>
    if h : x = y then .isTrue (by rw [h]) else
      .isFalse (fun hh => by cases hh; exact h rfl)
  | .ok _, .error _ => .isFalse (fun hh => by cases hh)
  | .error _, .ok _ => .isFalse (fun hh => by cases hh)

theorem readAllWith_prepare_error {c : Connection} {sql : String}
    {fr : DbRow → Except Error α} {e : RusqliteError}
    (h : c.prepare sql = .error e) :
    readAllWith c sql fr =
      .error { source := e, kind := ErrorKind.UnknownTransparent } := by
  unfold readAllWith
  rw [h]
  rfl

theorem readAllWith_run_error {c : Connection} {sql : String}
    {fr : DbRow → Except Error α} {stmt : Statement} {e : RusqliteError}
    (h1 : c.prepare sql = .ok stmt) (h2 : stmt.run = .error e) :
    readAllWith c sql fr = .error { source := e, kind := ErrorKind.Query } := by
  simp [readAllWith, h1, h2]

theorem readAllWith_rows {c : Connection} {sql : String}
    {fr : DbRow → Except Error α} {stmt : Statement} {rows : List DbRow}
    (h1 : c.prepare sql = .ok stmt) (h2 : stmt.run = .ok rows) :
    readAllWith c sql fr = collectRows (rows.map fr) := by
  simp [readAllWith, h1, h2]

theorem collectRows_map_ok (vals : List α) :
    collectRows (vals.map .ok) = .ok vals := by
  induction vals with
  | nil => rfl
  | cons x xs ih => simp [collectRows, ih, Except.map]

theorem collectRows_first_error (pre : List α) (e : Error)
    (post : List (Except Error α)) :
    collectRows (pre.map .ok ++ .error e :: post) = .error e := by
  induction pre with
  | nil => rfl
  | cons x xs ih => simp [collectRows, ih, Except.map]

theorem readAllWith_result_set {c : Connection} {sql : String}
    {fr : DbRow → Except Error α} {stmt : Statement} {rows : List DbRow}
    (h1 : c.prepare sql = .ok stmt) (h2 : stmt.run = .ok rows) :
    (∀ (pre : List α) e post,
      rows.map fr = pre.map .ok ++ .error e :: post →
      readAllWith c sql fr = .error e) ∧
    (∀ vals : List α, rows.map fr = vals.map .ok →
      readAllWith c sql fr = .ok vals) := by
  constructor
  · intro pre e post hsplit
    rw [readAllWith_rows h1 h2, hsplit, collectRows_first_error]
  · intro vals hok
    rw [readAllWith_rows h1 h2, hok, collectRows_map_ok]

theorem ErrP.bind {α β : Type} {x : Except Error α} {f : α → Except Error β}
    {P : Error → Prop} (hx : ErrP x P) (hf : ∀ a, ErrP (f a) P) :
    ErrP (x >>= f) P := by
  intro e h
  cases hx2 : x with
  | error e2 =>
    rw [hx2] at h
    have hred : (Except.error e2 : Except Error α) >>= f = .error e2 := rfl
    rw [hred] at h
    cases h
    exact hx _ hx2
  | ok a =>
    rw [hx2] at h
    have hred : (Except.ok a : Except Error α) >>= f = f a := rfl
    rw [hred] at h
    exact hf a e h

theorem ErrP.pureOk {α : Type} {a : α} {P : Error → Prop} :
    ErrP (pure a : Except Error α) P :=
  fun _ h => nomatch h

theorem ErrP.get {r : DbRow} {t c : String} {idx : Nat} {β : Type}
    {co : SqlValue → Except RusqliteError β} {cols : List String}
    (hmem : c ∈ cols) :
    ErrP (LocalRow.get ⟨r, ⟨t, c⟩⟩ idx co) (RowErrPred t cols) := by
  intro e h
  unfold LocalRow.get at h
  split at h
  · exact nomatch h
  · cases h
    exact ⟨c, hmem, rfl, rfl⟩

theorem ErrP.optional_blob {r : DbRow} {t c : String} {idx : Nat}
    {cols : List String} (hmem : c ∈ cols) :
    ErrP (optional_blob_to_path ⟨r, ⟨t, c⟩⟩ idx) (RowErrPred t cols) := by
  intro e h
  unfold optional_blob_to_path at h
  split at h
  · exact nomatch h
  · cases h
    rename_i heq
    exact ErrP.get hmem _ heq

theorem ErrP.str_or_blob {r : DbRow} {t c : String} {idx : Nat}
    {cols : List String} (hmem : c ∈ cols) :
    ErrP (str_or_blob_to_path ⟨r, ⟨t, c⟩⟩ idx) (RowErrPred t cols) := by
  intro e h
  unfold str_or_blob_to_path at h
  split at h
  · exact nomatch h
  · split at h
    · exact nomatch h
    · cases h
      rename_i heq
      exact ErrP.get hmem _ heq

theorem collectRows_ErrP {α : Type} : ∀ (l : List (Except Error α))
    (P : Error → Prop), (∀ x ∈ l, ErrP x P) → ErrP (collectRows l) P := by
  intro l P
  induction l with
  | nil => intro _ e h; exact nomatch h
  | cons x xs ih =>
    intro hall e h
    cases x with
    | error e2 =>
      have hc : collectRows (.error e2 :: xs) = (.error e2 : Except Error (List α)) := rfl
      rw [hc] at h
      cases h
      exact hall _ (List.mem_cons_self _ _) _ rfl
    | ok a =>
      have hc : collectRows (.ok a :: xs) = (collectRows xs).map (a :: ·) := rfl
      rw [hc] at h
      cases hx : collectRows xs with
      | ok v => rw [hx] at h; exact nomatch h
      | error e2 =>
        rw [hx] at h
        have hred : (Except.error e2 : Except Error (List α)).map (a :: ·) =
            .error e2 := rfl
        rw [hred] at h
        cases h
        exact ih (fun y hy => hall y (List.mem_cons_of_mem _ hy)) _ hx

theorem album_from_row_ErrP (r : DbRow) :
    ErrP (Album.from_row r) (RowErrPred "Album" Album.COLUMNS) := by
  unfold Album.from_row
  refine ErrP.bind (ErrP.get (by decide)) fun a => ?_
  refine ErrP.bind (ErrP.optional_blob (by decide)) fun a => ?_
  refine ErrP.bind (ErrP.get (by decide)) fun a => ?_
  refine ErrP.bind (ErrP.get (by decide)) fun a => ?_
  refine ErrP.bind (ErrP.get (by decide)) fun a => ?_
  refine ErrP.bind (ErrP.get (by decide)) fun a => ?_
  refine ErrP.bind (ErrP.get (by decide)) fun a => ?_
  refine ErrP.bind (ErrP.get (by decide)) fun a => ?_
  refine ErrP.bind (ErrP.get (by decide)) fun a => ?_
  refine ErrP.bind (ErrP.get (by decide)) fun a => ?_
  refine ErrP.bind (ErrP.get (by decide)) fun a => ?_
  refine ErrP.bind (ErrP.get (by decide)) fun a => ?_
  refine ErrP.bind (ErrP.get (by decide)) fun a => ?_
  refine ErrP.bind (ErrP.get (by decide)) fun a => ?_
  refine ErrP.bind (ErrP.get (by decide)) fun a => ?_
  refine ErrP.bind (ErrP.get (by decide)) fun a => ?_
  refine ErrP.bind (ErrP.get (by decide)) fun a => ?_
  refine ErrP.bind (ErrP.get (by decide)) fun a => ?_
  refine ErrP.bind (ErrP.get (by decide)) fun a => ?_
  refine ErrP.bind (ErrP.get (by decide)) fun a => ?_
  refine ErrP.bind (ErrP.get (by decide)) fun a => ?_
  refine ErrP.bind (ErrP.get (by decide)) fun a => ?_
  refine ErrP.bind (ErrP.get (by decide)) fun a => ?_
  refine ErrP.bind (ErrP.get (by decide)) fun a => ?_
  refine ErrP.bind (ErrP.get (by decide)) fun a => ?_
  refine ErrP.bind (ErrP.get (by decide)) fun a => ?_
  refine ErrP.bind (ErrP.get (by decide)) fun a => ?_
  refine ErrP.bind (ErrP.get (by decide)) fun a => ?_
  refine ErrP.bind (ErrP.get (by decide)) fun a => ?_
  refine ErrP.bind (ErrP.get (by decide)) fun a => ?_
  refine ErrP.bind (ErrP.get (by decide)) fun a => ?_
  exact ErrP.pureOk

theorem item_from_row_ErrP (r : DbRow) :
    ErrP (Item.from_row r) (RowErrPred "Item" Item.COLUMNS) := by
  unfold Item.from_row
  refine ErrP.bind (ErrP.get (by decide)) fun a => ?_
  refine ErrP.bind (ErrP.str_or_blob (by decide)) fun a => ?_
  refine ErrP.bind (ErrP.get (by decide)) fun a => ?_
  refine ErrP.bind (ErrP.get (by decide)) fun a => ?_
  refine ErrP.bind (ErrP.get (by decide)) fun a => ?_
  refine ErrP.bind (ErrP.get (by decide)) fun a => ?_
  refine ErrP.bind (ErrP.get (by decide)) fun a => ?_
  refine ErrP.bind (ErrP.get (by decide)) fun a => ?_
  refine ErrP.bind (ErrP.get (by decide)) fun a => ?_
  refine ErrP.bind (ErrP.get (by decide)) fun a => ?_
  refine ErrP.bind (ErrP.get (by decide)) fun a => ?_
  refine ErrP.bind (ErrP.get (by decide)) fun a => ?_
  refine ErrP.bind (ErrP.get (by decide)) fun a => ?_
  refine ErrP.bind (ErrP.get (by decide)) fun a => ?_
  refine ErrP.bind (ErrP.get (by decide)) fun a => ?_
  refine ErrP.bind (ErrP.get (by decide)) fun a => ?_
  refine ErrP.bind (ErrP.get (by decide)) fun a => ?_
  refine ErrP.bind (ErrP.get (by decide)) fun a => ?_
  refine ErrP.bind (ErrP.get (by decide)) fun a => ?_
  refine ErrP.bind (ErrP.get (by decide)) fun a => ?_
  refine ErrP.bind (ErrP.get (by decide)) fun a => ?_
  refine ErrP.bind (ErrP.get (by decide)) fun a => ?_
  refine ErrP.bind (ErrP.get (by decide)) fun a => ?_
  refine ErrP.bind (ErrP.get (by decide)) fun a => ?_
  refine ErrP.bind (ErrP.get (by decide)) fun a => ?_
  refine ErrP.bind (ErrP.get (by decide)) fun a => ?_
  refine ErrP.bind (ErrP.get (by decide)) fun a => ?_
  refine ErrP.bind (ErrP.get (by decide)) fun a => ?_
  refine ErrP.bind (ErrP.get (by decide)) fun a => ?_
  refine ErrP.bind (ErrP.get (by decide)) fun a => ?_
  refine ErrP.bind (ErrP.get (by decide)) fun a => ?_
  refine ErrP.bind (ErrP.get (by decide)) fun a => ?_
  refine ErrP.bind (ErrP.get (by decide)) fun a => ?_
  refine ErrP.bind (ErrP.get (by decide)) fun a => ?_
  refine ErrP.bind (ErrP.get (by decide)) fun a => ?_
  refine ErrP.bind (ErrP.get (by decide)) fun a => ?_
  refine ErrP.bind (ErrP.get (by decide)) fun a => ?_
  refine ErrP.bind (ErrP.get (by decide)) fun a => ?_
  refine ErrP.bind (ErrP.get (by decide)) fun a => ?_
  refine ErrP.bind (ErrP.get (by decide)) fun a => ?_
  refine ErrP.bind (ErrP.get (by decide)) fun a => ?_
  refine ErrP.bind (ErrP.get (by decide)) fun a => ?_
  refine ErrP.bind (ErrP.get (by decide)) fun a => ?_
  refine ErrP.bind (ErrP.get (by decide)) fun a => ?_
  refine ErrP.bind (ErrP.get (by decide)) fun a => ?_
  refine ErrP.bind (ErrP.get (by decide)) fun a => ?_
  refine ErrP.bind (ErrP.get (by decide)) fun a => ?_
  refine ErrP.bind (ErrP.get (by decide)) fun a => ?_
  refine ErrP.bind (ErrP.get (by decide)) fun a => ?_
  refine ErrP.bind (ErrP.get (by decide)) fun a => ?_
  refine ErrP.bind (ErrP.get (by decide)) fun a => ?_
  refine ErrP.bind (ErrP.get (by decide)) fun a => ?_
  refine ErrP.bind (ErrP.get (by decide)) fun a => ?_
  refine ErrP.bind (ErrP.get (by decide)) fun a => ?_
  refine ErrP.bind (ErrP.get (by decide)) fun a => ?_
  refine ErrP.bind (ErrP.get (by decide)) fun a => ?_
  refine ErrP.bind (ErrP.get (by decide)) fun a => ?_
  refine ErrP.bind (ErrP.get (by decide)) fun a => ?_
  refine ErrP.bind (ErrP.get (by decide)) fun a => ?_
  refine ErrP.bind (ErrP.get (by decide)) fun a => ?_
  refine ErrP.bind (ErrP.get (by decide)) fun a => ?_
  refine ErrP.bind (ErrP.get (by decide)) fun a => ?_
  refine ErrP.bind (ErrP.get (by decide)) fun a => ?_
  refine ErrP.bind (ErrP.get (by decide)) fun a => ?_
  refine ErrP.bind (ErrP.get (by decide)) fun a => ?_
  refine ErrP.bind (ErrP.get (by decide)) fun a => ?_
  exact ErrP.pureOk

/-! ## Claim theorems -/

/-- C10: converting an `Error` back into the storage-engine error yields the
wrapped source and discards the kind tag; wrapping a storage-engine error
always classifies it as `UnknownTransparent`, and the round trip is the
identity. -/
theorem error_roundtrip_spec :
    (∀ err : Error, Error.intoRusqlite err = err.source) ∧
    (∀ e : RusqliteError,
      (Error.fromRusqlite e).kind = ErrorKind.UnknownTransparent ∧
      Error.intoRusqlite (Error.fromRusqlite e) = e) :=
  ⟨fun _ => rfl, fun _ => ⟨rfl, rfl⟩⟩

set_option maxRecDepth 16384 in
/-- C5: for each entity with a table, the compiled `SQL_QUERY` is exactly a
SELECT of the declared field identifiers in declared order, followed by one
extra trailing `id` column, from that entity's table. -/
theorem sql_query_spec :
    Album.SQL_QUERY =
      "SELECT " ++ String.intercalate "," (Album.COLUMNS ++ ["id"]) ++
        " FROM albums" ∧
    Item.SQL_QUERY =
      "SELECT " ++ String.intercalate "," (Item.COLUMNS ++ ["id"]) ++
        " FROM items" ∧
    Album.SQL_QUERY =
      "SELECT id,artpath,added,albumartist,albumartist_sort,albumartist_credit,album,genre,year,month,day,disctotal,comp,mb_albumid,mb_albumartistid,albumtype,label,mb_releasegroupid,asin,catalognum,script,language,country,albumstatus,albumdisambig,rg_album_gain,rg_album_peak,r128_album_gain,original_year,original_month,original_day,id FROM albums" ∧
    Item.SQL_QUERY =
      "SELECT id,path,album_id,title,artist,artist_sort,artist_credit,album,albumartist,albumartist_sort,albumartist_credit,genre,lyricist,composer,composer_sort,arranger,grouping,year,month,day,track,tracktotal,disc,disctotal,lyrics,comments,bpm,comp,mb_trackid,mb_albumid,mb_artistid,mb_albumartistid,mb_releasetrackid,albumtype,label,acoustid_fingerprint,acoustid_id,mb_releasegroupid,asin,catalognum,script,language,country,albumstatus,media,albumdisambig,disctitle,encoder,rg_track_gain,rg_track_peak,rg_album_gain,rg_album_peak,r128_track_gain,r128_album_gain,original_year,original_month,original_day,initial_key,length,bitrate,format,samplerate,bitdepth,channels,mtime,added,id FROM items" := by
  refine ⟨by decide, by decide, by decide, by decide⟩

/-- C3 (counterexample): for the optional numeric field type `Option<i32>`
(e.g. `Album::r128_album_gain`), an explicitly stored zero is NOT reported
as "default" by `is_num_zero`, while an absent (NULL) value is — so the
predicate is not "value equals the numeric type's zero" and the NULL verdict
differs from the explicit-zero verdict. -/
theorem is_num_zero_option_counterexample :
    is_num_zero (some 0 : Option Int) = false ∧
    is_num_zero (none : Option Int) = true := by
  decide

/-- C3 (amended): `is_num_zero` reports a field as "default" exactly when it
equals the field type's `Default` value: zero for the plain numeric fields,
but `None` for the optional numeric fields, so an explicit stored zero in an
optional field is not reported as default while an absent value is. -/
theorem is_num_zero_spec :
    (∀ n : Nat, is_num_zero n = decide (n = 0)) ∧
    (∀ i : Int, is_num_zero i = decide (i = 0)) ∧
    (∀ q : Rat, is_num_zero q = decide (q = 0)) ∧
    (∀ o : Option Int, is_num_zero o = decide (o = none)) ∧
    (∀ o : Option Rat, is_num_zero o = decide (o = none)) ∧
    (∀ a : Album, is_num_zero a.year = decide (a.year = 0)) ∧
    (∀ a : Album, is_num_zero a.r128_album_gain =
      decide (a.r128_album_gain = none)) :=
  ⟨fun _ => rfl, fun _ => rfl, fun _ => rfl, fun _ => rfl, fun _ => rfl,
   fun _ => rfl, fun _ => rfl⟩

/-- C1 (counterexample): a connection whose `prepare` fails makes
`Album::read_all` return an `UnknownTransparent`-kind error, not a
`Query`-kind one. -/
theorem read_all_prepare_error_counterexample :
    Album.read_all connPrepareFails =
      .error { source := .sqliteFailure 1 "incomplete input",
               kind := ErrorKind.UnknownTransparent } ∧
    ErrorKind.UnknownTransparent ≠ ErrorKind.Query := by
  exact ⟨rfl, by decide⟩

/-- C1 (amended): for every entity kind, a failure preparing the schema's
query text makes `read_all` return an error wrapping the underlying cause
with kind `UnknownTransparent` (the plain `From` conversion), while a
failure executing the prepared query is the one reported with kind
`Query`. -/
theorem read_all_prepare_error_spec :
    (∀ (c : Connection) e, c.prepare Album.SQL_QUERY = .error e →
      Album.read_all c =
        .error { source := e, kind := ErrorKind.UnknownTransparent }) ∧
    (∀ (c : Connection) stmt e, c.prepare Album.SQL_QUERY = .ok stmt →
      stmt.run = .error e →
      Album.read_all c = .error { source := e, kind := ErrorKind.Query }) ∧
    (∀ (c : Connection) e, c.prepare Item.SQL_QUERY = .error e →
      Item.read_all c =
        .error { source := e, kind := ErrorKind.UnknownTransparent }) ∧
    (∀ (c : Connection) stmt e, c.prepare Item.SQL_QUERY = .ok stmt →
      stmt.run = .error e →
      Item.read_all c = .error { source := e, kind := ErrorKind.Query }) :=
  ⟨fun _ _ h => readAllWith_prepare_error h,
   fun _ _ _ h1 h2 => readAllWith_run_error h1 h2,
   fun _ _ h => readAllWith_prepare_error h,
   fun _ _ _ h1 h2 => readAllWith_run_error h1 h2⟩

/-- C1 (witness): the amended statement applied to concrete connections. -/
theorem read_all_prepare_error_spec_witness :
    Album.read_all connPrepareFails =
      .error { source := .sqliteFailure 1 "incomplete input",
               kind := ErrorKind.UnknownTransparent } ∧
    Item.read_all connRunFails =
      .error { source := .sqliteFailure 5 "database is locked",
               kind := ErrorKind.Query } :=
  ⟨read_all_prepare_error_spec.1 connPrepareFails _ rfl,
   read_all_prepare_error_spec.2.2.2 connRunFails stmtRunFails _ rfl rfl⟩

theorem utf8DecodeStep_valid : ∀ {l : List Nat} {c k : Nat},
    utf8DecodeStep l = (some c, k) → ValidScalar c := by
  intro l c k h
  unfold ValidScalar
  match l with
  | [] => simp [utf8DecodeStep] at h
  | [b0] =>
    simp only [utf8DecodeStep] at h
    split_ifs at h <;> simp_all <;> omega
  | [b0, b1] =>
    simp only [utf8DecodeStep] at h
    split_ifs at h <;> simp_all <;> omega
  | [b0, b1, b2] =>
    simp only [utf8DecodeStep] at h
    split_ifs at h <;> simp_all <;> omega
  | b0 :: b1 :: b2 :: b3 :: rest =>
    simp only [utf8DecodeStep] at h
    split_ifs at h <;> simp_all <;> omega

theorem utf8DecodeStep_consume : ∀ {l : List Nat} {oc : Option Nat} {k : Nat},
    l ≠ [] → utf8DecodeStep l = (oc, k) → 1 ≤ k ∧ k ≤ l.length := by
  intro l oc k hne h
  match l with
  | [] => exact absurd rfl hne
  | [b0] =>
    simp only [utf8DecodeStep] at h
    split_ifs at h <;> cases h <;> (try simp) <;> omega
  | [b0, b1] =>
    simp only [utf8DecodeStep] at h
    split_ifs at h <;> cases h <;> (try simp) <;> omega
  | [b0, b1, b2] =>
    simp only [utf8DecodeStep] at h
    split_ifs at h <;> cases h <;> (try simp) <;> omega
  | b0 :: b1 :: b2 :: b3 :: rest =>
    simp only [utf8DecodeStep] at h
    split_ifs at h <;> cases h <;> (try simp) <;> omega

theorem utf8EncodeChar_length_pos (c : Nat) : 1 ≤ (utf8EncodeChar c).length := by
  unfold utf8EncodeChar
  split_ifs <;> simp

theorem utf8DecodeStep_encodeChar {c : Nat} (hc : ValidScalar c)
    (rest : List Nat) :
    utf8DecodeStep (utf8EncodeChar c ++ rest) =
      (some c, (utf8EncodeChar c).length) := by
  unfold ValidScalar at hc
  unfold utf8EncodeChar
  split_ifs with h1 h2 h3
  · simp only [List.cons_append, List.nil_append, List.length_cons,
      List.length_nil]
    simp only [utf8DecodeStep]
    rw [if_pos h1]
  · simp only [List.cons_append, List.nil_append, List.length_cons,
      List.length_nil]
    simp only [utf8DecodeStep]
    rw [if_neg (by omega), if_neg (by omega), if_pos (by omega),
      if_pos (by omega)]
    simp only [Prod.mk.injEq, Option.some.injEq, and_true]
    omega
  · simp only [List.cons_append, List.nil_append, List.length_cons,
      List.length_nil]
    simp only [utf8DecodeStep]
    rw [if_neg (by omega), if_neg (by omega), if_neg (by omega),
      if_pos (by omega), if_pos (by omega), if_pos (by omega)]
    simp only [Prod.mk.injEq, Option.some.injEq, and_true]
    omega
  · simp only [List.cons_append, List.nil_append, List.length_cons,
      List.length_nil]
    simp only [utf8DecodeStep]
    rw [if_neg (by omega), if_neg (by omega), if_neg (by omega),
      if_neg (by omega), if_pos (by omega), if_pos (by omega),
      if_pos (by omega), if_pos (by omega)]
    simp only [Prod.mk.injEq, Option.some.injEq, and_true]
    omega

theorem utf8LossyGo_encode : ∀ (s : List Nat) (fuel : Nat),
    (∀ c ∈ s, ValidScalar c) → (utf8Encode s).length ≤ fuel →
    utf8LossyGo fuel (utf8Encode s) = s := by
  intro s
  induction s with
  | nil =>
    intro fuel _ _
    have : utf8Encode [] = [] := rfl
    rw [this]
    cases fuel <;> rfl
  | cons c cs ih =>
    intro fuel hval hlen
    have hc : ValidScalar c := hval c (by simp)
    have henc : utf8Encode (c :: cs) = utf8EncodeChar c ++ utf8Encode cs := by
      simp [utf8Encode]
    rw [henc] at hlen ⊢
    have hpos : 1 ≤ (utf8EncodeChar c).length := utf8EncodeChar_length_pos c
    obtain ⟨b0, bs, hsplit⟩ : ∃ b0 bs, utf8EncodeChar c = b0 :: bs := by
      cases hE : utf8EncodeChar c with
      | nil => rw [hE] at hpos; simp at hpos
      | cons x xs => exact ⟨x, xs, rfl⟩
    match fuel with
    | 0 =>
      rw [hsplit] at hlen
      simp at hlen
    | fuel + 1 =>
      have hstep := utf8DecodeStep_encodeChar hc (utf8Encode cs)
      rw [hsplit] at hstep ⊢
      simp only [List.cons_append] at hstep ⊢
      rw [utf8LossyGo, hstep]
      simp only []
      congr 1
      have hdrop : List.drop (b0 :: bs).length (b0 :: (bs ++ utf8Encode cs)) =
          utf8Encode cs := by
        rw [← List.cons_append, List.drop_left]
      rw [hdrop]
      apply ih fuel (fun x hx => hval x (by simp [hx]))
      rw [hsplit] at hlen
      simp only [List.length_append, List.length_cons] at hlen ⊢
      omega

theorem utf8Lossy_encode (s : List Nat) (h : ∀ c ∈ s, ValidScalar c) :
    utf8Lossy (utf8Encode s) = s :=
  utf8LossyGo_encode s (utf8Encode s).length h le_rfl

theorem utf8Valid_of_step : ∀ {l : List Nat} {c k : Nat},
    utf8DecodeStep l = (some c, k) → Utf8Valid (l.drop k) → Utf8Valid l := by
  intro l c k h hv
  match l with
  | [] => simp [utf8DecodeStep] at h
  | [b0] =>
    simp only [utf8DecodeStep] at h
    split_ifs at h <;> (try simp at h)
    all_goals
      obtain ⟨-, rfl⟩ := h
      first
        | exact .ascii (by omega) hv
        | exact .two (by omega) (by omega) hv
        | exact .three (by omega) (by omega) (by omega) hv
        | exact .four (by omega) (by omega) (by omega) (by omega) hv
  | [b0, b1] =>
    simp only [utf8DecodeStep] at h
    split_ifs at h <;> (try simp at h)
    all_goals
      obtain ⟨-, rfl⟩ := h
      first
        | exact .ascii (by omega) hv
        | exact .two (by omega) (by omega) hv
        | exact .three (by omega) (by omega) (by omega) hv
        | exact .four (by omega) (by omega) (by omega) (by omega) hv
  | [b0, b1, b2] =>
    simp only [utf8DecodeStep] at h
    split_ifs at h <;> (try simp at h)
    all_goals
      obtain ⟨-, rfl⟩ := h
      first
        | exact .ascii (by omega) hv
        | exact .two (by omega) (by omega) hv
        | exact .three (by omega) (by omega) (by omega) hv
        | exact .four (by omega) (by omega) (by omega) (by omega) hv
  | b0 :: b1 :: b2 :: b3 :: rest =>
    simp only [utf8DecodeStep] at h
    split_ifs at h <;> (try simp at h)
    all_goals
      obtain ⟨-, rfl⟩ := h
      first
        | exact .ascii (by omega) hv
        | exact .two (by omega) (by omega) hv
        | exact .three (by omega) (by omega) (by omega) hv
        | exact .four (by omega) (by omega) (by omega) (by omega) hv

theorem utf8LossyGo_replacement : ∀ (fuel : Nat) (l : List Nat),
    l.length ≤ fuel → ¬ Utf8Valid l → 0xFFFD ∈ utf8LossyGo fuel l := by
  intro fuel
  induction fuel with
  | zero =>
    intro l hlen hv
    have : l = [] := List.eq_nil_of_length_eq_zero (by omega)
    subst this
    exact absurd Utf8Valid.nil hv
  | succ fuel ih =>
    intro l hlen hv
    match l with
    | [] => exact absurd Utf8Valid.nil hv
    | b :: rest =>
      match hstep : utf8DecodeStep (b :: rest) with
      | (none, k) =>
        simp [utf8LossyGo, hstep]
      | (some c, k) =>
        have hcons := utf8DecodeStep_consume (by simp) hstep
        have hv2 : ¬ Utf8Valid ((b :: rest).drop k) :=
          fun hvv => hv (utf8Valid_of_step hstep hvv)
        have hlen2 : ((b :: rest).drop k).length ≤ fuel := by
          simp only [List.length_drop, List.length_cons] at *
          omega
        have hmem := ih _ hlen2 hv2
        simp only [utf8LossyGo, hstep]
        exact List.mem_cons_of_mem _ hmem

theorem utf8LossyGo_scalars : ∀ (fuel : Nat) (l : List Nat) (c : Nat),
    c ∈ utf8LossyGo fuel l → ValidScalar c := by
  intro fuel
  induction fuel with
  | zero => intro l c hc; simp [utf8LossyGo] at hc
  | succ fuel ih =>
    intro l c hc
    match l with
    | [] => simp [utf8LossyGo] at hc
    | b :: rest =>
      match hstep : utf8DecodeStep (b :: rest) with
      | (oc, k) =>
        simp only [utf8LossyGo, hstep] at hc
        rcases List.mem_cons.mp hc with hhd | htl
        · cases oc with
          | some c0 =>
            simp at hhd
            subst hhd
            exact utf8DecodeStep_valid hstep
          | none =>
            simp at hhd
            subst hhd
            unfold ValidScalar
            omega
        · exact ih _ _ htl

/-- C4: for every connection and entity kind, `read_all` over a result set
returns, on the first row whose binding fails, exactly that row's error and
no entities; and when every row binds, all bound entities in result-set
order, contiguous, none skipped. -/
theorem read_all_result_set_spec :
    (∀ (c : Connection) stmt rows, c.prepare Album.SQL_QUERY = .ok stmt →
      stmt.run = .ok rows →
      ((∀ (pre : List Album) e post,
          rows.map Album.from_row = pre.map .ok ++ .error e :: post →
          Album.read_all c = .error e) ∧
        (∀ vals : List Album, rows.map Album.from_row = vals.map .ok →
          Album.read_all c = .ok vals))) ∧
    (∀ (c : Connection) stmt rows, c.prepare Item.SQL_QUERY = .ok stmt →
      stmt.run = .ok rows →
      ((∀ (pre : List Item) e post,
          rows.map Item.from_row = pre.map .ok ++ .error e :: post →
          Item.read_all c = .error e) ∧
        (∀ vals : List Item, rows.map Item.from_row = vals.map .ok →
          Item.read_all c = .ok vals))) :=
  ⟨fun _ _ _ h1 h2 => readAllWith_result_set h1 h2,
   fun _ _ _ h1 h2 => readAllWith_result_set h1 h2⟩

/-- C4 (witness): one result set whose single row fails to bind returns
exactly that row's error; one fully decodable result set returns all
entities in order. -/
theorem read_all_result_set_spec_witness :
    Album.read_all (connRows [[]]) =
      .error { source := .invalidColumnIndex,
               kind := ErrorKind.Row ⟨"Album", "id"⟩ } ∧
    Album.read_all (connRows [albumRowOk]) = .ok [albumOk] :=
  ⟨(read_all_result_set_spec.1 (connRows [[]]) (stmtRows [[]]) [[]]
      rfl rfl).1 [] _ [] (by decide),
   (read_all_result_set_spec.1 (connRows [albumRowOk]) (stmtRows [albumRowOk])
      [albumRowOk] rfl rfl).2 [albumOk] (by decide)⟩

/-- C8: the optional-blob-to-path decoder maps a NULL column to "no value
present" (`none`, not an error, not an empty path), a blob column to the
lossily decoded path wrapped as a present value, and its only failure path
is the underlying column read failing. -/
theorem optional_blob_to_path_spec :
    ∀ (r : DbRow) (tc : TableColumn) (idx : Nat),
      (r[idx]? = some .Null → optional_blob_to_path ⟨r, tc⟩ idx = .ok none) ∧
      (∀ b, r[idx]? = some (.Blob b) →
        optional_blob_to_path ⟨r, tc⟩ idx = .ok (some (blob_to_path b))) ∧
      (∀ e, optional_blob_to_path ⟨r, tc⟩ idx = .error e →
        LocalRow.get ⟨r, tc⟩ idx (fromSqlOption fromSqlBlob) = .error e) := by
  intro r tc idx
  refine ⟨fun h => ?_, fun b h => ?_, fun e h => ?_⟩
  · simp [optional_blob_to_path, LocalRow.get, rowGetValue, h, fromSqlOption,
      Except.bind]
  · simp [optional_blob_to_path, LocalRow.get, rowGetValue, h, fromSqlOption,
      fromSqlBlob, Except.map, Except.bind]
  · revert h
    unfold optional_blob_to_path
    cases LocalRow.get ⟨r, tc⟩ idx (fromSqlOption fromSqlBlob) with
    | ok v => intro h; cases h
    | error e2 => intro h; cases h; rfl

/-- C8 (witness): the claim applied to a one-column row holding NULL and to
one holding a blob. -/
theorem optional_blob_to_path_spec_witness :
    optional_blob_to_path ⟨[.Null], ⟨"Album", "artpath"⟩⟩ 0 = .ok none ∧
    optional_blob_to_path ⟨[.Blob [0xFF]], ⟨"Album", "artpath"⟩⟩ 0 =
      .ok (some (blob_to_path [0xFF])) :=
  ⟨(optional_blob_to_path_spec [.Null] ⟨"Album", "artpath"⟩ 0).1 rfl,
   (optional_blob_to_path_spec [.Blob [0xFF]] ⟨"Album", "artpath"⟩ 0).2.1
      [0xFF] rfl⟩

/-- C6: a path column stored as text, and the same logical path stored as a
binary blob whose bytes are the UTF-8 encoding of that text, decode through
`str_or_blob_to_path` to equal in-memory path values. -/
theorem path_text_blob_spec :
    ∀ (s : List Nat), (∀ c ∈ s, ValidScalar c) →
    ∀ (r1 r2 : DbRow) (tc1 tc2 : TableColumn) (idx1 idx2 : Nat),
      r1[idx1]? = some (.Text s) →
      r2[idx2]? = some (.Blob (utf8Encode s)) →
      str_or_blob_to_path ⟨r1, tc1⟩ idx1 = .ok s ∧
      str_or_blob_to_path ⟨r2, tc2⟩ idx2 = .ok s := by
  intro s hs r1 r2 tc1 tc2 idx1 idx2 h1 h2
  constructor
  · simp [str_or_blob_to_path, LocalRow.get, rowGetValue, h1, fromSqlString,
      Except.bind]
  · simp only [str_or_blob_to_path, LocalRow.get, rowGetValue, h2,
      fromSqlString, fromSqlBlob, Except.bind]
    rw [utf8Lossy_encode s hs]

/-- C6 (witness): the claim applied to the one-character text `[0x65E5]`
(whose UTF-8 encoding is the blob `[0xE6, 0x97, 0xA5]`). -/
theorem path_text_blob_spec_witness :
    str_or_blob_to_path ⟨[.Text [0x65E5]], ⟨"Item", "path"⟩⟩ 0 =
      .ok [0x65E5] ∧
    str_or_blob_to_path ⟨[.Blob [0xE6, 0x97, 0xA5]], ⟨"Item", "path"⟩⟩ 0 =
      .ok [0x65E5] :=
  path_text_blob_spec [0x65E5] (by decide) [.Text [0x65E5]]
    [.Blob [0xE6, 0x97, 0xA5]] ⟨"Item", "path"⟩ ⟨"Item", "path"⟩ 0 0
    rfl (by decide)

/-- C7: decoding a path column holding any binary blob succeeds (never an
error due to the bytes), every scalar of the decoded path is a valid Unicode
scalar value, and when the blob is not valid UTF-8 the decoded path contains
the replacement character U+FFFD. -/
theorem blob_decoding_spec :
    ∀ (b : List Nat) (r : DbRow) (tc : TableColumn) (idx : Nat),
      r[idx]? = some (.Blob b) →
      str_or_blob_to_path ⟨r, tc⟩ idx = .ok (blob_to_path b) ∧
      (∀ c ∈ blob_to_path b, ValidScalar c) ∧
      (¬ Utf8Valid b → 0xFFFD ∈ blob_to_path b) := by
  intro b r tc idx h
  refine ⟨?_, fun c hc => utf8LossyGo_scalars _ _ _ hc,
    fun hnv => utf8LossyGo_replacement _ _ le_rfl hnv⟩
  simp [str_or_blob_to_path, LocalRow.get, rowGetValue, h, fromSqlString,
    fromSqlBlob, Except.bind, blob_to_path]

/-- C7 (witness): the claim applied to the invalid one-byte blob `[0xFF]`,
which decodes, without error, to exactly one replacement character. -/
theorem blob_decoding_spec_witness :
    str_or_blob_to_path ⟨[.Blob [0xFF]], ⟨"Item", "path"⟩⟩ 0 =
      .ok (blob_to_path [0xFF]) ∧
    0xFFFD ∈ blob_to_path [0xFF] ∧
    blob_to_path [0xFF] = [0xFFFD] :=
  ⟨(blob_decoding_spec [0xFF] [.Blob [0xFF]] ⟨"Item", "path"⟩ 0 rfl).1,
   (blob_decoding_spec [0xFF] [.Blob [0xFF]] ⟨"Item", "path"⟩ 0 rfl).2.2
     (fun hv => by cases hv <;> omega),
   by decide⟩

/-- C9: the library loader opens the database read-only; any open failure is
returned as an `Open`-kind error wrapping the cause; on success it reads all
albums then all items over the same connection, the first failure from
either short-circuiting unchanged; and the loader consults the external
open function only at the read-only flag. -/
theorem read_all_loader_spec :
    (∀ (f : OpenWithFlags) (p : PathBuf) e,
      f p .SQLITE_OPEN_READ_ONLY = .error e →
      read_all f p = .error { source := e, kind := ErrorKind.Open }) ∧
    (∀ (f : OpenWithFlags) (p : PathBuf) conn,
      f p .SQLITE_OPEN_READ_ONLY = .ok conn →
      ((∀ e, Album.read_all conn = .error e → read_all f p = .error e) ∧
        (∀ albums e, Album.read_all conn = .ok albums →
          Item.read_all conn = .error e → read_all f p = .error e) ∧
        (∀ albums items, Album.read_all conn = .ok albums →
          Item.read_all conn = .ok items →
          read_all f p = .ok (albums, items)))) ∧
    (∀ (f g : OpenWithFlags) (p : PathBuf),
      f p .SQLITE_OPEN_READ_ONLY = g p .SQLITE_OPEN_READ_ONLY →
      read_all f p = read_all g p) := by
  refine ⟨fun f p e h => ?_, fun f p conn h => ⟨fun e h1 => ?_,
    fun albums e h1 h2 => ?_, fun albums items h1 h2 => ?_⟩,
    fun f g p h => ?_⟩
  · simp [read_all, h]
  · simp only [read_all, h]
    rw [h1]
    rfl
  · simp only [read_all, h]
    rw [h1, h2]
    rfl
  · simp only [read_all, h]
    rw [h1, h2]
    rfl
  · simp [read_all, h]

/-- C9 (witness): the claim applied to a concrete failing open and to a
concrete successful open of an empty database. -/
theorem read_all_loader_spec_witness :
    read_all (fun _ _ => .error (.sqliteFailure 14 "unable to open database file")) [] =
      .error { source := .sqliteFailure 14 "unable to open database file",
               kind := ErrorKind.Open } ∧
    read_all (fun _ _ => .ok (connRows [])) [] = .ok ([], []) :=
  ⟨read_all_loader_spec.1 _ [] _ rfl,
   (read_all_loader_spec.2.1 _ [] (connRows []) rfl).2.2 [] [] rfl rfl⟩

/-- C2 (counterexample): a failing `albums`-table row makes `read_all`
return a `Row`-kind error whose `TableColumn` context names the entity type
`"Album"` — not the SQL table name `"albums"` — and whose display text shows
`"Album"` accordingly. -/
theorem row_error_table_name_counterexample :
    Album.read_all (connRows [[]]) =
      .error { source := .invalidColumnIndex,
               kind := ErrorKind.Row ⟨"Album", "id"⟩ } ∧
    "Album" ≠ "albums" ∧
    Error.display { source := .invalidColumnIndex,
                    kind := ErrorKind.Row ⟨"Album", "id"⟩ } =
      "failed to get column \"id\" in table \"Album\"" :=
  ⟨rfl, by decide, rfl⟩

/-- C2 (amended): when decoding a column of an `albums`-table row fails,
`read_all` returns a `Row`-kind error whose `TableColumn` context names the
entity type `"Album"` (the struct name, not the SQL table name `"albums"`)
together with one of the declared columns, and whose display text names both
that entity type and the failing column; likewise `"Item"` for the `items`
table. -/
theorem read_all_row_error_spec :
    (∀ (c : Connection) stmt rows e,
      c.prepare Album.SQL_QUERY = .ok stmt → stmt.run = .ok rows →
      Album.read_all c = .error e →
      RowErrPred "Album" Album.COLUMNS e) ∧
    (∀ (c : Connection) stmt rows e,
      c.prepare Item.SQL_QUERY = .ok stmt → stmt.run = .ok rows →
      Item.read_all c = .error e →
      RowErrPred "Item" Item.COLUMNS e) := by
  constructor
  · intro c stmt rows e h1 h2 herr
    have hra : Album.read_all c = collectRows (rows.map Album.from_row) :=
      readAllWith_rows h1 h2
    rw [hra] at herr
    refine collectRows_ErrP _ _ (fun x hx => ?_) e herr
    obtain ⟨r, -, rfl⟩ := List.mem_map.mp hx
    exact album_from_row_ErrP r
  · intro c stmt rows e h1 h2 herr
    have hra : Item.read_all c = collectRows (rows.map Item.from_row) :=
      readAllWith_rows h1 h2
    rw [hra] at herr
    refine collectRows_ErrP _ _ (fun x hx => ?_) e herr
    obtain ⟨r, -, rfl⟩ := List.mem_map.mp hx
    exact item_from_row_ErrP r

/-- C2 (witness): the amended statement applied to a concrete connection
whose single `albums` row is empty, failing at column `id`. -/
theorem read_all_row_error_spec_witness :
    RowErrPred "Album" Album.COLUMNS
      { source := .invalidColumnIndex,
        kind := ErrorKind.Row ⟨"Album", "id"⟩ } :=
  read_all_row_error_spec.1 (connRows [[]]) (stmtRows [[]]) [[]]
    { source := .invalidColumnIndex,
      kind := ErrorKind.Row ⟨"Album", "id"⟩ } rfl rfl (by decide)

end Berts
